import Mathlib

/- Verification of the enemy formation, spawn, motion and projectile
   subsystem of a small 2D bevy arcade shooter (src/enemy.rs,
   src/player.rs, src/main.rs).  The f32 arithmetic of the source is
   idealised as real arithmetic; the thread RNG is modelled by explicit
   sample records passed to each call; ECS resources and per-entity
   components become explicit state records.  Rust tuple fields .0/.1
   become Lean .1/.2. -/

/- Constants from src/main.rs, src/enemy.rs and src/player.rs. -/

noncomputable def TIME_PER_FRAME : ℝ := 1 / 60

def MAX_ENEMIES : Nat := 5

def MAX_FORMATION_MEMBERS : Nat := 2

noncomputable def PLAYER_SPRITE_WIDTH : ℝ := 144

noncomputable def SPEED_DEFAULT : ℝ := 500

/- Wrap-around modulus of the u32 counter in ActiveEnemies. -/
def U32 : Nat := 4294967296

/- Release-build semantics of the unchecked `active_enemies.0 -= 1` in
   player_laser_hit_enemy (src/main.rs): u32 wrapping subtraction of 1. -/
def u32_sub_one (n : Nat) : Nat := (n + (U32 - 1)) % U32

/- WindowSize resource (src/main.rs). -/
structure WindowSize where
  width : ℝ
  height : ℝ

/- Formation component (src/enemy.rs). -/
structure Formation where
  start : ℝ × ℝ
  radius : ℝ × ℝ
  offset : ℝ × ℝ
  angle : ℝ
  group_id : Nat

/- FormationMaker resource (src/enemy.rs). -/
structure FormationMaker where
  group_seq : Nat
  current_formation : Option Formation
  current_formation_members : Nat

/- FormationMaker::default(). -/
def FormationMaker.init : FormationMaker := ⟨0, none, 0⟩

/- One draw of the thread RNG used by FormationMaker::make: the coin
   flip for start.x, the start.y sample from -h_span..h_span, the two
   offset samples from -w_span..w_span and 0..h_span, and the radius.x
   sample from 80..150. -/
structure RngDraw where
  coin : Bool
  y : ℝ
  ox : ℝ
  oy : ℝ
  rx : ℝ

/- Four-quadrant arctangent, modelling Rust f32::atan2 (self = y). -/
noncomputable def atan2 (y x : ℝ) : ℝ :=
  if 0 < x then Real.arctan (y / x)
  else if x < 0 ∧ 0 ≤ y then Real.arctan (y / x) + Real.pi
  else if x < 0 ∧ y < 0 then Real.arctan (y / x) - Real.pi
  else if x = 0 ∧ 0 < y then Real.pi / 2
  else if x = 0 ∧ y < 0 then -(Real.pi / 2)
  else 0

/- The new-formation arm of FormationMaker::make (src/enemy.rs lines
   36-56): start.x is width or height by coin flip, the random samples
   fill start.y, offset and radius.x, radius.y is fixed 100, the entry
   angle is (y - offset.0).atan2(x - offset.1), and group_seq is
   pre-incremented to give the new group_id. -/
noncomputable def FormationMaker.makeNew (s : FormationMaker) (w : WindowSize) (rng : RngDraw) :
    Formation × FormationMaker :=
  let x := if rng.coin then w.width else w.height
  let y := rng.y
  let start := (x, y)
  let offset := (rng.ox, rng.oy)
  let radius : ℝ × ℝ := (rng.rx, 100)
  let angle := atan2 (y - offset.1) (x - offset.2)
  let group_id := s.group_seq + 1
  let formation : Formation := ⟨start, radius, offset, angle, group_id⟩
  (formation, ⟨group_id, some formation, 1⟩)

/- FormationMaker::make (src/enemy.rs lines 33-63): synthesize a new
   formation when none exists or the current one has been issued to
   MAX_FORMATION_MEMBERS enemies, otherwise hand out a clone of the
   current one and bump the member counter. -/
noncomputable def FormationMaker.make (s : FormationMaker) (w : WindowSize) (rng : RngDraw) :
    Formation × FormationMaker :=
  match s.current_formation with
  | none => s.makeNew w rng
  | some f =>
    if MAX_FORMATION_MEMBERS ≤ s.current_formation_members then s.makeNew w rng
    else (f, { s with current_formation_members := s.current_formation_members + 1 })

/- Does the next make call synthesize a new formation?  This is exactly
   the (None, _) | (_, true) condition of the match in make. -/
def synthesizes (s : FormationMaker) : Bool :=
  s.current_formation.isNone || decide (MAX_FORMATION_MEMBERS ≤ s.current_formation_members)

/- State of the maker after a sequence of make calls. -/
noncomputable def runState (w : WindowSize) : List RngDraw → FormationMaker → FormationMaker
  | [], s => s
  | r :: rest, s => runState w rest (s.make w r).2

/- Formation returned by the (i+1)-th make call of a sequence. -/
noncomputable def outFormation (w : WindowSize) : List RngDraw → FormationMaker → Nat → Option Formation
  | [], _, _ => none
  | r :: _, s, 0 => some (s.make w r).1
  | r :: rest, s, Nat.succ j => outFormation w rest (s.make w r).2 j

/- group_id of the (i+1)-th make call of a sequence started from the
   default maker (0 when the sequence is too short). -/
noncomputable def outGroupId (w : WindowSize) (rs : List RngDraw) (i : Nat) : Nat :=
  ((outFormation w rs FormationMaker.init i).map Formation.group_id).getD 0

/- Orbital direction of enemy_movment (src/enemy.rs line 163). -/
noncomputable def dirOf (f : Formation) : ℝ :=
  if f.start.1 > 0 then 1 else -1

/- Candidate angle of enemy_movment (src/enemy.rs line 164). -/
noncomputable def candidateAngle (speed : ℝ) (f : Formation) : ℝ :=
  f.angle + dirOf f * speed * TIME_PER_FRAME / (min f.radius.1 f.radius.2 * Real.pi / 2)

/- Target point on the ellipse (src/enemy.rs lines 167-168). -/
noncomputable def targetPoint (speed : ℝ) (f : Formation) : ℝ × ℝ :=
  (f.radius.1 * Real.cos (candidateAngle speed f) + f.offset.1,
   f.radius.2 * Real.sin (candidateAngle speed f) + f.offset.2)

/- Euclidean distance, in the (dx*dx + dy*dy).sqrt() form of line 172. -/
noncomputable def edist2 (a b : ℝ × ℝ) : ℝ :=
  Real.sqrt ((a.1 - b.1) * (a.1 - b.1) + (a.2 - b.2) * (a.2 - b.2))

/- Distance from the current position to this tick's target point. -/
noncomputable def distToTarget (speed : ℝ) (f : Formation) (pos : ℝ × ℝ) : ℝ :=
  edist2 pos (targetPoint speed f)

/- distance_ratio of enemy_movment (src/enemy.rs line 174), with the
   explicit zero-distance guard of the source. -/
noncomputable def distanceRatioOf (speed : ℝ) (f : Formation) (pos : ℝ × ℝ) : ℝ :=
  if distToTarget speed f pos = 0 then 0
  else TIME_PER_FRAME * speed / distToTarget speed f pos

/- enemy_movment (src/enemy.rs lines 153-188) for one enemy and one
   tick: returns the new position and the (conditionally angle-updated)
   formation.  max_distance = TIME_PER_FRAME * speed as in line 155. -/
noncomputable def enemy_movment (speed : ℝ) (f : Formation) (pos : ℝ × ℝ) :
    (ℝ × ℝ) × Formation :=
  let max_distance := TIME_PER_FRAME * speed
  let dst := targetPoint speed f
  let delta_x := pos.1 - dst.1
  let delta_y := pos.2 - dst.2
  let distance := distToTarget speed f pos
  let distance_quot := distanceRatioOf speed f pos
  let x := pos.1 - delta_x * distance_quot
  let y := pos.2 - delta_y * distance_quot
  ((if delta_x > 0 then max x dst.1 else min x dst.1,
    if delta_y > 0 then max y dst.2 else min y dst.2),
   if distance < max_distance * speed / 20 then { f with angle := candidateAngle speed f } else f)

/- enemy_laser_movment (src/enemy.rs lines 139-150) for one enemy laser
   and one tick: move down by speed * TIME_PER_FRAME, despawn (none)
   when the resulting y is below -window_height/2 - 50. -/
noncomputable def enemy_laser_movment (window_height speed y : ℝ) : Option ℝ :=
  let y2 := y - speed * TIME_PER_FRAME
  if y2 < -window_height / 2 - 50 then none else some y2

/- One live enemy entity as spawned by enemy_spawn. -/
structure EnemyEnt where
  pos : ℝ × ℝ
  speed : ℝ
  formation : Formation

/- The simulation state the spawn/destroy claims need: the ActiveEnemies
   resource, the list of live enemies, and the FormationMaker. -/
structure GameState where
  active_enemies : Nat
  enemies : List EnemyEnt
  maker : FormationMaker

/- Startup state: ActiveEnemies(0) from main.rs, FormationMaker::default
   from EnemyPlugin::build, no enemy entities. -/
def initialState : GameState := ⟨0, [], FormationMaker.init⟩

/- enemy_spawn (src/enemy.rs lines 86-111): when under the cap, request
   a formation, spawn one enemy at formation.start with default speed,
   and increment the counter; otherwise do nothing. -/
noncomputable def enemy_spawn (g : GameState) (w : WindowSize) (rng : RngDraw) : GameState :=
  if g.active_enemies < MAX_ENEMIES then
    let fm := g.maker.make w rng
    { active_enemies := g.active_enemies + 1,
      enemies := ⟨fm.1.start, SPEED_DEFAULT, fm.1⟩ :: g.enemies,
      maker := fm.2 }
  else g

/- The despawn-plus-decrement performed by player_laser_hit_enemy
   (src/main.rs lines 113-116) when a laser hits the enemy at index i:
   the entity is despawned and the u32 counter is decremented without
   any guard. -/
def destroyEnemy (g : GameState) (i : Nat) : GameState :=
  { g with
    enemies := g.enemies.eraseIdx i,
    active_enemies := u32_sub_one g.active_enemies }

/- States reachable from startup via spawn ticks and collision
   destructions of an existing enemy. -/
inductive Reachable : GameState → Prop where
  | init : Reachable initialState
  | spawn (g : GameState) (w : WindowSize) (rng : RngDraw) :
      Reachable g → Reachable (enemy_spawn g w rng)
  | destroy (g : GameState) (i : Nat) :
      Reachable g → i < g.enemies.length → Reachable (destroyEnemy g i)

/- A sequence of spawn-cadence ticks. -/
noncomputable def spawnTicks (w : WindowSize) : List RngDraw → GameState → GameState
  | [], g => g
  | r :: rest, g => spawnTicks w rest (enemy_spawn g w r)

/- Player entity components read by player_movment (src/player.rs):
   x position, Speed, and the WindowSize component of the player. -/
structure PlayerMoveState where
  x : ℝ
  speed : ℝ
  window_width : ℝ

/- player_movment (src/player.rs lines 89-109) with the optional player
   singleton made explicit: none when no live player matches the query. -/
noncomputable def player_movment (left right : Bool) (p : Option PlayerMoveState) :
    Option PlayerMoveState :=
  match p with
  | none => none
  | some pl =>
    let dir : ℝ := if left then -1 else if right then 1 else 0
    let movement := dir * pl.speed * TIME_PER_FRAME
    let limit := pl.window_width / 2 - PLAYER_SPRITE_WIDTH / 4
    some { pl with
      x := if pl.x + movement > limit ∨ pl.x + movement < -limit then pl.x
           else pl.x + movement }

/- Player entity components read by player_fire: position and the
   PlayerReadyFire flag. -/
structure PlayerFireState where
  x : ℝ
  y : ℝ
  ready_fire : Bool

/- player_fire (src/player.rs lines 111-145) with the optional player
   singleton explicit; returns the updated player (if any) and the
   positions of the lasers spawned this tick. -/
noncomputable def player_fire (space_pressed space_just_released : Bool)
    (p : Option PlayerFireState) : Option PlayerFireState × List (ℝ × ℝ) :=
  match p with
  | none => (none, [])
  | some pl =>
    let x_offset := PLAYER_SPRITE_WIDTH / 4 - 5
    let fired := pl.ready_fire && space_pressed
    let lasers := if fired then
        [(pl.x + x_offset, pl.y + 15), (pl.x - x_offset, pl.y + 15)] else []
    let ready1 := if fired then false else pl.ready_fire
    let ready2 := if space_just_released then true else ready1
    (some { pl with ready_fire := ready2 }, lasers)

/- Concrete window of the main.rs WindowDescriptor (600 x 680). -/
noncomputable def w0 : WindowSize := ⟨600, 680⟩

/- A concrete RNG draw used by witnesses. -/
noncomputable def r0 : RngDraw := ⟨true, 0, 0, 0, 100⟩

/- The formation of the concrete scenario of the distance-zero claim:
   radius (100,100), offset (0,0), angle 0 (start chosen on the
   positive side, as the generator produces for this window). -/
noncomputable def formationC5 : Formation := ⟨(600, 0), (100, 100), (0, 0), 0, 1⟩

/- Invariant tying the maker state to the number n of make calls done
   since FormationMaker.init: calls alternate new, reuse, new, reuse. -/
def MakerInv (n : Nat) (s : FormationMaker) : Prop :=
  s.group_seq = (n + 1) / 2 ∧
  (if n = 0 then s.current_formation = none ∧ s.current_formation_members = 0
   else (∃ f, s.current_formation = some f ∧ f.group_id = (n + 1) / 2) ∧
     s.current_formation_members = 2 - n % 2)

/- Shape facts about generator-produced formations needed by the
   direction claim: start.x is the window width or height, radius.x is
   the positive random sample, radius.y is the fixed 100. -/
def GoodFormation (w : WindowSize) (f : Formation) : Prop :=
  (f.start.1 = w.width ∨ f.start.1 = w.height) ∧ 0 < f.radius.1 ∧ f.radius.2 = 100

/- Helper lemmas about FormationMaker.make. -/

theorem make_of_none (s : FormationMaker) (w : WindowSize) (r : RngDraw)
    (h : s.current_formation = none) : s.make w r = s.makeNew w r := by
  simp only [FormationMaker.make, h]

theorem make_of_full (s : FormationMaker) (w : WindowSize) (r : RngDraw) (f : Formation)
    (h : s.current_formation = some f)
    (h2 : MAX_FORMATION_MEMBERS ≤ s.current_formation_members) :
    s.make w r = s.makeNew w r := by
  simp only [FormationMaker.make, h]
  rw [if_pos h2]

theorem make_of_avail (s : FormationMaker) (w : WindowSize) (r : RngDraw) (f : Formation)
    (h : s.current_formation = some f)
    (h2 : s.current_formation_members < MAX_FORMATION_MEMBERS) :
    s.make w r = (f, { s with current_formation_members := s.current_formation_members + 1 }) := by
  simp only [FormationMaker.make, h]
  rw [if_neg (not_le.mpr h2)]

theorem make_synth_true (w : WindowSize) (s : FormationMaker) (r : RngDraw)
    (h : synthesizes s = true) : s.make w r = s.makeNew w r := by
  rcases hc : s.current_formation with _ | f
  · exact make_of_none s w r hc
  · have h2 : MAX_FORMATION_MEMBERS ≤ s.current_formation_members := by
      rw [synthesizes, hc] at h
      simpa using h
    exact make_of_full s w r f hc h2

theorem make_synth_false (w : WindowSize) (s : FormationMaker) (r : RngDraw)
    (h : synthesizes s = false) :
    ∃ f0, s.current_formation = some f0 ∧
      s.make w r = (f0, { s with current_formation_members := s.current_formation_members + 1 }) := by
  rcases hc : s.current_formation with _ | f
  · rw [synthesizes, hc] at h
    simp at h
  · have h2 : s.current_formation_members < MAX_FORMATION_MEMBERS := by
      rw [synthesizes, hc] at h
      simpa using h
    exact ⟨f, rfl, by rw [make_of_avail s w r f hc h2, hc]⟩

theorem makerInv_init : MakerInv 0 FormationMaker.init := by
  constructor
  · norm_num [FormationMaker.init]
  · rw [if_pos rfl]
    exact ⟨rfl, rfl⟩

theorem make_step (w : WindowSize) (r : RngDraw) (n : Nat) (s : FormationMaker)
    (h : MakerInv n s) :
    (s.make w r).1.group_id = n / 2 + 1 ∧ MakerInv (n + 1) (s.make w r).2 := by
  obtain ⟨hseq, hrest⟩ := h
  by_cases hn : n = 0
  · subst hn
    rw [if_pos rfl] at hrest
    obtain ⟨hc, hm⟩ := hrest
    rw [make_of_none s w r hc]
    refine ⟨?_, ?_, ?_⟩
    · show s.group_seq + 1 = 0 / 2 + 1
      omega
    · show s.group_seq + 1 = (0 + 1 + 1) / 2
      omega
    · rw [if_neg (by omega)]
      refine ⟨⟨(s.makeNew w r).1, rfl, ?_⟩, ?_⟩
      · show s.group_seq + 1 = (0 + 1 + 1) / 2
        omega
      · show (1 : Nat) = 2 - (0 + 1) % 2
        omega
  · rw [if_neg hn] at hrest
    obtain ⟨⟨f, hcf, hfid⟩, hm⟩ := hrest
    by_cases hpar : n % 2 = 0
    · rw [make_of_full s w r f hcf (by show 2 ≤ s.current_formation_members; omega)]
      refine ⟨?_, ?_, ?_⟩
      · show s.group_seq + 1 = n / 2 + 1
        omega
      · show s.group_seq + 1 = (n + 1 + 1) / 2
        omega
      · rw [if_neg (by omega)]
        refine ⟨⟨(s.makeNew w r).1, rfl, ?_⟩, ?_⟩
        · show s.group_seq + 1 = (n + 1 + 1) / 2
          omega
        · show (1 : Nat) = 2 - (n + 1) % 2
          omega
    · have hp1 : n % 2 = 1 := by omega
      rw [make_of_avail s w r f hcf (by show s.current_formation_members < 2; omega)]
      refine ⟨?_, ?_, ?_⟩
      · show f.group_id = n / 2 + 1
        omega
      · show s.group_seq = (n + 1 + 1) / 2
        omega
      · rw [if_neg (by omega)]
        refine ⟨⟨f, hcf, ?_⟩, ?_⟩
        · show f.group_id = (n + 1 + 1) / 2
          omega
        · show s.current_formation_members + 1 = 2 - (n + 1) % 2
          omega

theorem synthesizes_of_inv (n : Nat) (s : FormationMaker) (h : MakerInv n s) :
    synthesizes s = decide (n % 2 = 0) := by
  obtain ⟨hseq, hrest⟩ := h
  by_cases hn : n = 0
  · subst hn
    rw [if_pos rfl] at hrest
    rw [synthesizes, hrest.1]
    simp
  · rw [if_neg hn] at hrest
    obtain ⟨⟨f, hcf, _⟩, hm⟩ := hrest
    rcases Nat.mod_two_eq_zero_or_one n with hp | hp
    · have hm2 : s.current_formation_members = 2 := by omega
      simp [synthesizes, hcf, hm2, hp, MAX_FORMATION_MEMBERS]
    · have hm1 : s.current_formation_members = 1 := by omega
      simp [synthesizes, hcf, hm1, hp, MAX_FORMATION_MEMBERS]

theorem runState_inv (w : WindowSize) : ∀ (rs : List RngDraw) (s : FormationMaker) (n : Nat),
    MakerInv n s → MakerInv (n + rs.length) (runState w rs s) := by
  intro rs
  induction rs with
  | nil => intro s n h; simpa [runState] using h
  | cons r rest ih =>
    intro s n h
    have h3 := ih (s.make w r).2 (n + 1) (make_step w r n s h).2
    simp only [runState, List.length_cons]
    rw [show n + (rest.length + 1) = n + 1 + rest.length from by omega]
    exact h3

theorem outFormation_group_id (w : WindowSize) : ∀ (rs : List RngDraw) (s : FormationMaker)
    (n i : Nat), MakerInv n s → i < rs.length →
    (outFormation w rs s i).map Formation.group_id = some ((n + i) / 2 + 1) := by
  intro rs
  induction rs with
  | nil => intro s n i _ hi; simp at hi
  | cons r rest ih =>
    intro s n i hinv hi
    obtain ⟨hid, hinv2⟩ := make_step w r n s hinv
    cases i with
    | zero => simp [outFormation, hid]
    | succ j =>
      simp only [outFormation]
      rw [ih (s.make w r).2 (n + 1) j hinv2 (by simpa using hi)]
      congr 1
      omega

theorem outGroupId_eq (w : WindowSize) (rs : List RngDraw) (i : Nat) (h : i < rs.length) :
    outGroupId w rs i = i / 2 + 1 := by
  have h2 := outFormation_group_id w rs FormationMaker.init 0 i makerInv_init h
  rw [outGroupId, h2]
  simp

/- Helper lemmas about the motion solver. -/

theorem distanceRatioOf_nonneg (speed : ℝ) (f : Formation) (pos : ℝ × ℝ) (hs : 0 ≤ speed) :
    0 ≤ distanceRatioOf speed f pos := by
  rw [distanceRatioOf]
  by_cases hd : distToTarget speed f pos = 0
  · rw [if_pos hd]
  · rw [if_neg hd]
    have hd2 : 0 < distToTarget speed f pos :=
      lt_of_le_of_ne (Real.sqrt_nonneg _) (Ne.symm hd)
    have hT : (0 : ℝ) ≤ TIME_PER_FRAME := by rw [TIME_PER_FRAME]; norm_num
    exact div_nonneg (mul_nonneg hT hs) hd2.le

theorem clamp_step_eq (org dst ratio : ℝ) :
    (if org - dst > 0 then max (org - (org - dst) * ratio) dst
     else min (org - (org - dst) * ratio) dst) = org - (org - dst) * min ratio 1 := by
  by_cases hd : org - dst > 0
  · rw [if_pos hd]
    rcases le_or_lt ratio 1 with h1 | h1
    · rw [min_eq_left h1]
      apply max_eq_left
      nlinarith
    · rw [min_eq_right h1.le]
      have he : org - (org - dst) * 1 = dst := by ring
      rw [he]
      apply max_eq_right
      nlinarith
  · rw [if_neg hd]
    push_neg at hd
    rcases le_or_lt ratio 1 with h1 | h1
    · rw [min_eq_left h1]
      apply min_eq_left
      nlinarith
    · rw [min_eq_right h1.le]
      have he : org - (org - dst) * 1 = dst := by ring
      rw [he]
      apply min_eq_right
      nlinarith

theorem enemy_movment_fst (speed : ℝ) (f : Formation) (pos : ℝ × ℝ) :
    (enemy_movment speed f pos).1 =
      (pos.1 - (pos.1 - (targetPoint speed f).1) * min (distanceRatioOf speed f pos) 1,
       pos.2 - (pos.2 - (targetPoint speed f).2) * min (distanceRatioOf speed f pos) 1) := by
  simp only [enemy_movment]
  exact Prod.ext (clamp_step_eq _ _ _) (clamp_step_eq _ _ _)

theorem clamp_dist_le (org dst : ℝ × ℝ) (m : ℝ) (hm0 : 0 ≤ m) (hm1 : m ≤ 1) :
    edist2 (org.1 - (org.1 - dst.1) * m, org.2 - (org.2 - dst.2) * m) dst ≤ edist2 org dst := by
  simp only [edist2]
  apply Real.sqrt_le_sqrt
  nlinarith [mul_nonneg (mul_nonneg hm0 (by linarith : (0:ℝ) ≤ 2 - m))
    (add_nonneg (mul_self_nonneg (org.1 - dst.1)) (mul_self_nonneg (org.2 - dst.2)))]

theorem clamp_move_eq (org dst : ℝ × ℝ) (m : ℝ) (hm0 : 0 ≤ m) :
    edist2 (org.1 - (org.1 - dst.1) * m, org.2 - (org.2 - dst.2) * m) org
      = m * edist2 org dst := by
  simp only [edist2]
  have h1 : (org.1 - (org.1 - dst.1) * m - org.1) * (org.1 - (org.1 - dst.1) * m - org.1)
      + (org.2 - (org.2 - dst.2) * m - org.2) * (org.2 - (org.2 - dst.2) * m - org.2)
      = (m * m) * ((org.1 - dst.1) * (org.1 - dst.1) + (org.2 - dst.2) * (org.2 - dst.2)) := by
    ring
  rw [h1, Real.sqrt_mul (mul_self_nonneg m), Real.sqrt_mul_self hm0]

theorem clamp_axis_le (org dst m : ℝ) (hm0 : 0 ≤ m) (hm1 : m ≤ 1) :
    |org - (org - dst) * m - dst| ≤ |org - dst| := by
  have h : org - (org - dst) * m - dst = (org - dst) * (1 - m) := by ring
  rw [h, abs_mul]
  have h2 : |1 - m| ≤ 1 := by
    rw [abs_of_nonneg (by linarith)]
    linarith
  exact mul_le_of_le_one_right (abs_nonneg _) h2

/- Concrete computations on formationC5 used by witnesses and the
   distance-zero counterexample. -/

theorem dirOf_formationC5 : dirOf formationC5 = 1 := by
  rw [dirOf]
  norm_num [formationC5]

theorem candidateAngle_speed0 : candidateAngle 0 formationC5 = 0 := by
  rw [candidateAngle]
  norm_num [formationC5]

theorem targetPoint_speed0 : targetPoint 0 formationC5 = ((100 : ℝ), (0 : ℝ)) := by
  rw [targetPoint, candidateAngle_speed0]
  norm_num [formationC5, Real.cos_zero, Real.sin_zero]

theorem distToTarget_speed0 : distToTarget 0 formationC5 ((100 : ℝ), (0 : ℝ)) = 0 := by
  rw [distToTarget, targetPoint_speed0, edist2]
  norm_num

theorem candidateAngle_500_C5 : candidateAngle 500 formationC5 = 1 / (6 * Real.pi) := by
  rw [candidateAngle, dirOf_formationC5]
  have h1 : formationC5.angle = 0 := rfl
  have h2 : min formationC5.radius.1 formationC5.radius.2 = 100 := by
    norm_num [formationC5]
  rw [h1, h2, TIME_PER_FRAME]
  have hpi := Real.pi_ne_zero
  field_simp
  ring

theorem cos_candidateAngle_500_pos : 0 < Real.cos (candidateAngle 500 formationC5) := by
  apply Real.cos_pos_of_mem_Ioo
  rw [candidateAngle_500_C5]
  constructor
  · have := Real.pi_pos
    have h6 : 0 < 6 * Real.pi := by linarith
    have : 0 < 1 / (6 * Real.pi) := by positivity
    linarith
  · rw [div_lt_div_iff (by positivity) (by norm_num : (0:ℝ) < 2)]
    nlinarith [Real.pi_gt_three]

theorem targetPoint_500_C5_fst :
    (targetPoint 500 formationC5).1 = 100 * Real.cos (candidateAngle 500 formationC5) := by
  rw [targetPoint]
  norm_num [formationC5]

theorem targetPoint_500_C5_snd :
    (targetPoint 500 formationC5).2 = 100 * Real.sin (candidateAngle 500 formationC5) := by
  rw [targetPoint]
  norm_num [formationC5]

theorem distToTarget_500_C5 : distToTarget 500 formationC5 ((0 : ℝ), (0 : ℝ)) = 100 := by
  rw [distToTarget, edist2]
  have h1 : (((0 : ℝ), (0 : ℝ)) : ℝ × ℝ).1 - (targetPoint 500 formationC5).1
      = -(100 * Real.cos (candidateAngle 500 formationC5)) := by
    rw [targetPoint_500_C5_fst]
    norm_num
  have h2 : (((0 : ℝ), (0 : ℝ)) : ℝ × ℝ).2 - (targetPoint 500 formationC5).2
      = -(100 * Real.sin (candidateAngle 500 formationC5)) := by
    rw [targetPoint_500_C5_snd]
    norm_num
  rw [h1, h2]
  have harg : -(100 * Real.cos (candidateAngle 500 formationC5))
        * -(100 * Real.cos (candidateAngle 500 formationC5))
      + -(100 * Real.sin (candidateAngle 500 formationC5))
        * -(100 * Real.sin (candidateAngle 500 formationC5)) = 10000 := by
    have h := Real.sin_sq_add_cos_sq (candidateAngle 500 formationC5)
    linear_combination 10000 * h
  rw [harg]
  rw [show (10000 : ℝ) = 100 * 100 by norm_num]
  exact Real.sqrt_mul_self (by norm_num)

theorem distanceRatioOf_500_C5 :
    distanceRatioOf 500 formationC5 ((0 : ℝ), (0 : ℝ)) = 1 / 12 := by
  rw [distanceRatioOf, distToTarget_500_C5]
  rw [if_neg (by norm_num), TIME_PER_FRAME]
  norm_num

/-- C3: for every enemy and every motion tick, the post-tick distance to the
instantaneous target point on the ellipse is at most the pre-tick distance, the
displacement magnitude never exceeds max_distance = speed * TIME_PER_FRAME, and
the per-axis clamp never moves the enemy past the target on either axis. -/
theorem enemy_movment_no_overshoot (speed : ℝ) (f : Formation) (pos : ℝ × ℝ)
    (hs : 0 ≤ speed) :
    distToTarget speed f (enemy_movment speed f pos).1 ≤ distToTarget speed f pos ∧
    edist2 (enemy_movment speed f pos).1 pos ≤ TIME_PER_FRAME * speed ∧
    |(enemy_movment speed f pos).1.1 - (targetPoint speed f).1|
      ≤ |pos.1 - (targetPoint speed f).1| ∧
    |(enemy_movment speed f pos).1.2 - (targetPoint speed f).2|
      ≤ |pos.2 - (targetPoint speed f).2| := by
  have hr : 0 ≤ distanceRatioOf speed f pos := distanceRatioOf_nonneg speed f pos hs
  have hm0 : 0 ≤ min (distanceRatioOf speed f pos) 1 := le_min hr zero_le_one
  have hm1 : min (distanceRatioOf speed f pos) 1 ≤ 1 := min_le_right _ _
  have hp2 := enemy_movment_fst speed f pos
  refine ⟨?_, ?_, ?_, ?_⟩
  · rw [distToTarget, distToTarget, hp2]
    exact clamp_dist_le pos (targetPoint speed f) _ hm0 hm1
  · rw [hp2, clamp_move_eq pos (targetPoint speed f) _ hm0]
    by_cases hd : edist2 pos (targetPoint speed f) = 0
    · rw [hd, mul_zero]
      have hT : (0 : ℝ) ≤ TIME_PER_FRAME := by rw [TIME_PER_FRAME]; norm_num
      exact mul_nonneg hT hs
    · have hdpos : 0 < edist2 pos (targetPoint speed f) :=
        lt_of_le_of_ne (Real.sqrt_nonneg _) (Ne.symm hd)
      have hd2 : distToTarget speed f pos ≠ 0 := hd
      calc min (distanceRatioOf speed f pos) 1 * edist2 pos (targetPoint speed f)
          ≤ distanceRatioOf speed f pos * edist2 pos (targetPoint speed f) :=
            mul_le_mul_of_nonneg_right (min_le_left _ _) hdpos.le
        _ = TIME_PER_FRAME * speed := by
            rw [distanceRatioOf, if_neg hd2]
            exact div_mul_cancel₀ _ hd2
  · rw [hp2]
    exact clamp_axis_le pos.1 (targetPoint speed f).1 _ hm0 hm1
  · rw [hp2]
    exact clamp_axis_le pos.2 (targetPoint speed f).2 _ hm0 hm1

/-- C3 witness: the no-overshoot theorem applied at speed 500, the concrete
formationC5 and the origin position. -/
theorem enemy_movment_no_overshoot_app :
    distToTarget 500 formationC5 (enemy_movment 500 formationC5 ((0:ℝ), (0:ℝ))).1
      ≤ distToTarget 500 formationC5 ((0:ℝ), (0:ℝ)) ∧
    edist2 (enemy_movment 500 formationC5 ((0:ℝ), (0:ℝ))).1 ((0:ℝ), (0:ℝ))
      ≤ TIME_PER_FRAME * 500 ∧
    |(enemy_movment 500 formationC5 ((0:ℝ), (0:ℝ))).1.1 - (targetPoint 500 formationC5).1|
      ≤ |((0:ℝ), (0:ℝ)).1 - (targetPoint 500 formationC5).1| ∧
    |(enemy_movment 500 formationC5 ((0:ℝ), (0:ℝ))).1.2 - (targetPoint 500 formationC5).2|
      ≤ |((0:ℝ), (0:ℝ)).2 - (targetPoint 500 formationC5).2| :=
  enemy_movment_no_overshoot 500 formationC5 ((0:ℝ), (0:ℝ)) (by norm_num)

/-- C4: the Formation's stored angle is unchanged by the tick when
distance >= max_distance * speed / 20, and equals the freshly computed candidate
angle (formation.angle + dir * speed * TIME_PER_FRAME / (min radius * pi / 2))
when distance is below that threshold. -/
theorem enemy_movment_angle_commit (speed : ℝ) (f : Formation) (pos : ℝ × ℝ) :
    (TIME_PER_FRAME * speed * speed / 20 ≤ distToTarget speed f pos →
      (enemy_movment speed f pos).2 = f) ∧
    (distToTarget speed f pos < TIME_PER_FRAME * speed * speed / 20 →
      (enemy_movment speed f pos).2 = { f with angle := candidateAngle speed f }) := by
  constructor
  · intro h
    simp only [enemy_movment]
    rw [if_neg (not_lt.mpr h)]
  · intro h
    simp only [enemy_movment]
    rw [if_pos h]

/-- C4 witness: at speed 0 the threshold and the distance are both 0, so the
not-committed branch applies and the formation is returned unchanged. -/
theorem enemy_movment_angle_commit_app :
    (enemy_movment 0 formationC5 ((100:ℝ), (0:ℝ))).2 = formationC5 :=
  (enemy_movment_angle_commit 0 formationC5 ((100:ℝ), (0:ℝ))).1
    (by rw [distToTarget_speed0]; norm_num)

/-- C5 (amended): whenever the enemy's position coincides exactly with the
computed target point (distance = 0), the solver forces distance_ratio to 0
instead of dividing by zero and the position is unchanged by the tick. -/
theorem distance_zero_keeps_position (speed : ℝ) (f : Formation) (pos : ℝ × ℝ)
    (h : distToTarget speed f pos = 0) :
    distanceRatioOf speed f pos = 0 ∧ (enemy_movment speed f pos).1 = pos := by
  have hr0 : distanceRatioOf speed f pos = 0 := by rw [distanceRatioOf, if_pos h]
  refine ⟨hr0, ?_⟩
  rw [enemy_movment_fst speed f pos, hr0]
  norm_num

/-- C5 witness: the distance-zero theorem applied at speed 0 with the enemy
exactly on the target point (100, 0) of formationC5. -/
theorem distance_zero_keeps_position_app :
    distanceRatioOf 0 formationC5 ((100:ℝ), (0:ℝ)) = 0 ∧
    (enemy_movment 0 formationC5 ((100:ℝ), (0:ℝ))).1 = ((100:ℝ), (0:ℝ)) :=
  distance_zero_keeps_position 0 formationC5 ((100:ℝ), (0:ℝ)) distToTarget_speed0

/-- C5 counterexample: in the concrete scenario of the claim (radius (100,100),
offset (0,0), angle 0, enemy exactly at the offset point) the distance to the
computed target point is 100, not 0, and the solver does move the enemy on that
tick. -/
theorem distance_zero_scenario_cex :
    distToTarget 500 formationC5 ((0:ℝ), (0:ℝ)) = 100 ∧
    (enemy_movment 500 formationC5 ((0:ℝ), (0:ℝ))).1 ≠ ((0:ℝ), (0:ℝ)) := by
  refine ⟨distToTarget_500_C5, ?_⟩
  have hx : (enemy_movment 500 formationC5 ((0:ℝ), (0:ℝ))).1.1
      = (0:ℝ) - ((0:ℝ) - (targetPoint 500 formationC5).1) * min (1/12 : ℝ) 1 := by
    rw [enemy_movment_fst 500 formationC5 ((0:ℝ), (0:ℝ)), distanceRatioOf_500_C5]
  intro hcontra
  have h1 : (enemy_movment 500 formationC5 ((0:ℝ), (0:ℝ))).1.1 = 0 := by rw [hcontra]
  rw [hx, targetPoint_500_C5_fst] at h1
  have hmin : min (1/12 : ℝ) 1 = 1/12 := by norm_num
  rw [hmin] at h1
  nlinarith [cos_candidateAngle_500_pos]

/- Helper lemmas about enemy_spawn and the population counter. -/

theorem spawn_lt (g : GameState) (w : WindowSize) (r : RngDraw)
    (h : g.active_enemies < MAX_ENEMIES) :
    (enemy_spawn g w r).active_enemies = g.active_enemies + 1 ∧
    (enemy_spawn g w r).enemies.length = g.enemies.length + 1 := by
  simp only [enemy_spawn]
  rw [if_pos h]
  exact ⟨rfl, rfl⟩

theorem spawn_ge (g : GameState) (w : WindowSize) (r : RngDraw)
    (h : MAX_ENEMIES ≤ g.active_enemies) : enemy_spawn g w r = g := by
  simp only [enemy_spawn]
  rw [if_neg (not_lt.mpr h)]

theorem reachable_inv (g : GameState) (h : Reachable g) :
    g.enemies.length = g.active_enemies ∧ g.active_enemies ≤ MAX_ENEMIES := by
  induction h with
  | init => exact ⟨rfl, by norm_num [initialState, MAX_ENEMIES]⟩
  | spawn g w r hg ih =>
    by_cases hlt : g.active_enemies < MAX_ENEMIES
    · obtain ⟨h1, h2⟩ := spawn_lt g w r hlt
      refine ⟨by rw [h1, h2, ih.1], ?_⟩
      rw [h1]
      omega
    · rw [spawn_ge g w r (not_lt.mp hlt)]
      exact ih
  | destroy g i hg hi ih =>
    obtain ⟨h1, h2⟩ := ih
    have h3 : 0 < g.active_enemies := by omega
    have h4 : g.active_enemies ≤ 5 := by
      have : MAX_ENEMIES = 5 := rfl
      omega
    constructor
    · show (g.enemies.eraseIdx i).length = u32_sub_one g.active_enemies
      have h5 := List.length_eraseIdx_add_one hi
      rw [u32_sub_one, U32]
      omega
    · show u32_sub_one g.active_enemies ≤ MAX_ENEMIES
      rw [u32_sub_one, U32]
      show _ ≤ 5
      omega

theorem spawn_scenario (w : WindowSize) (r1 r2 r3 r4 r5 r6 : RngDraw) :
    (spawnTicks w [r1, r2, r3, r4, r5] initialState).active_enemies = 5 ∧
    (spawnTicks w [r1, r2, r3, r4, r5] initialState).enemies.length = 5 ∧
    enemy_spawn (spawnTicks w [r1, r2, r3, r4, r5] initialState) w r6 =
      spawnTicks w [r1, r2, r3, r4, r5] initialState := by
  have e0a : initialState.active_enemies = 0 := rfl
  have e0l : initialState.enemies.length = 0 := rfl
  have hM : MAX_ENEMIES = 5 := rfl
  have s1 := spawn_lt initialState w r1 (by rw [e0a, hM]; norm_num)
  have s2 := spawn_lt (enemy_spawn initialState w r1) w r2
    (by rw [s1.1, e0a, hM]; norm_num)
  have s3 := spawn_lt (enemy_spawn (enemy_spawn initialState w r1) w r2) w r3
    (by rw [s2.1, s1.1, e0a, hM]; norm_num)
  have s4 := spawn_lt (enemy_spawn (enemy_spawn (enemy_spawn initialState w r1) w r2) w r3) w r4
    (by rw [s3.1, s2.1, s1.1, e0a, hM]; norm_num)
  have s5 := spawn_lt (enemy_spawn (enemy_spawn (enemy_spawn (enemy_spawn initialState
      w r1) w r2) w r3) w r4) w r5
    (by rw [s4.1, s3.1, s2.1, s1.1, e0a, hM]; norm_num)
  have hfold : spawnTicks w [r1, r2, r3, r4, r5] initialState =
      enemy_spawn (enemy_spawn (enemy_spawn (enemy_spawn (enemy_spawn initialState
        w r1) w r2) w r3) w r4) w r5 := by
    simp only [spawnTicks]
  have ha : (spawnTicks w [r1, r2, r3, r4, r5] initialState).active_enemies = 5 := by
    rw [hfold, s5.1, s4.1, s3.1, s2.1, s1.1, e0a]
  have hl : (spawnTicks w [r1, r2, r3, r4, r5] initialState).enemies.length = 5 := by
    rw [hfold, s5.2, s4.2, s3.2, s2.2, s1.2, e0l]
  refine ⟨ha, hl, ?_⟩
  apply spawn_ge
  rw [ha, hM]

/-- C1: for every reachable simulation state the live-enemy count equals the
ActiveEnemies counter and never exceeds MAX_ENEMIES; each spawn tick below the
cap creates exactly one enemy and increments the counter; a spawn tick at or
above the cap does nothing; and from zero enemies five consecutive spawn ticks
produce exactly five enemies while a sixth tick spawns none. -/
theorem enemy_spawn_population_cap :
    (∀ g : GameState, Reachable g →
      g.enemies.length = g.active_enemies ∧ g.active_enemies ≤ MAX_ENEMIES) ∧
    (∀ (g : GameState) (w : WindowSize) (r : RngDraw), g.active_enemies < MAX_ENEMIES →
      (enemy_spawn g w r).active_enemies = g.active_enemies + 1 ∧
      (enemy_spawn g w r).enemies.length = g.enemies.length + 1) ∧
    (∀ (g : GameState) (w : WindowSize) (r : RngDraw), MAX_ENEMIES ≤ g.active_enemies →
      enemy_spawn g w r = g) ∧
    (∀ (w : WindowSize) (r1 r2 r3 r4 r5 r6 : RngDraw),
      (spawnTicks w [r1, r2, r3, r4, r5] initialState).active_enemies = 5 ∧
      (spawnTicks w [r1, r2, r3, r4, r5] initialState).enemies.length = 5 ∧
      enemy_spawn (spawnTicks w [r1, r2, r3, r4, r5] initialState) w r6 =
        spawnTicks w [r1, r2, r3, r4, r5] initialState) :=
  ⟨reachable_inv, spawn_lt, spawn_ge, spawn_scenario⟩

/-- C1 witness: the cap theorem applied at the startup state and at the
concrete window and RNG draw, five then six spawn ticks. -/
theorem enemy_spawn_population_cap_app :
    (initialState.enemies.length = initialState.active_enemies ∧
      initialState.active_enemies ≤ MAX_ENEMIES) ∧
    (spawnTicks w0 [r0, r0, r0, r0, r0] initialState).active_enemies = 5 ∧
    (spawnTicks w0 [r0, r0, r0, r0, r0] initialState).enemies.length = 5 ∧
    enemy_spawn (spawnTicks w0 [r0, r0, r0, r0, r0] initialState) w0 r0 =
      spawnTicks w0 [r0, r0, r0, r0, r0] initialState :=
  ⟨enemy_spawn_population_cap.1 initialState Reachable.init,
   enemy_spawn_population_cap.2.2.2 w0 r0 r0 r0 r0 r0 r0⟩

/-- C2 counterexample: the decrement performed on enemy destruction is the
unchecked u32 subtraction active_enemies.0 -= 1, and decrementing the counter
at 0 does not leave it at 0 (it wraps to 2^32 - 1 under release semantics). -/
theorem active_enemies_underflow_cex :
    u32_sub_one 0 ≠ 0 ∧ u32_sub_one 0 = 4294967295 := by
  rw [u32_sub_one, U32]
  norm_num

/-- C2 (amended): the decrement on enemy destruction is an unchecked u32
subtraction with no clamp: at 0 it wraps to 2^32 - 1 (release semantics)
instead of clamping to 0, for positive counters below 2^32 it yields n - 1,
and in every reachable state a destruction only ever decrements a strictly
positive counter, so the underflow is not reached by the simulation itself. -/
theorem active_enemies_decrement_wraps :
    u32_sub_one 0 = U32 - 1 ∧
    (∀ n : Nat, 0 < n → n < U32 → u32_sub_one n = n - 1) ∧
    (∀ (g : GameState) (i : Nat), Reachable g → i < g.enemies.length →
      0 < g.active_enemies ∧
      (destroyEnemy g i).active_enemies = g.active_enemies - 1) := by
  refine ⟨by rw [u32_sub_one, U32], ?_, ?_⟩
  · intro n h1 h2
    rw [u32_sub_one, U32] at *
    omega
  · intro g i hg hi
    obtain ⟨h1, h2⟩ := reachable_inv g hg
    have hM : MAX_ENEMIES = 5 := rfl
    have h3 : 0 < g.active_enemies := by omega
    refine ⟨h3, ?_⟩
    show u32_sub_one g.active_enemies = g.active_enemies - 1
    rw [u32_sub_one, U32]
    omega

/-- C2 witness: the amended decrement characterisation applied at the concrete
counter values 0 and 5. -/
theorem active_enemies_decrement_wraps_app :
    u32_sub_one 0 = U32 - 1 ∧ u32_sub_one 5 = 4 :=
  ⟨active_enemies_decrement_wraps.1,
   active_enemies_decrement_wraps.2.1 5 (by norm_num) (by rw [U32]; norm_num)⟩

/-- C6: across any sequence of make() calls from the default maker no three
consecutive calls return the same group_id (so at most MAX_FORMATION_MEMBERS = 2
consecutive calls share one), a call whose precondition triggers synthesis
resets the member counter to 1 and issues group_seq + 1 as the new group_id,
and any other call returns a clone of the current Formation unchanged while
only incrementing the member counter. -/
theorem formation_reuse_bound (w : WindowSize) (rs : List RngDraw) (i : Nat)
    (h : i + 2 < rs.length) :
    (¬(outGroupId w rs i = outGroupId w rs (i + 1) ∧
       outGroupId w rs (i + 1) = outGroupId w rs (i + 2))) ∧
    (∀ (s : FormationMaker) (r : RngDraw), synthesizes s = true →
      (s.make w r).2.current_formation_members = 1 ∧
      (s.make w r).1.group_id = s.group_seq + 1) ∧
    (∀ (s : FormationMaker) (r : RngDraw) (f0 : Formation), synthesizes s = false →
      s.current_formation = some f0 →
      (s.make w r).1 = f0 ∧
      (s.make w r).2 = { s with
        current_formation_members := s.current_formation_members + 1 }) := by
  refine ⟨?_, ?_, ?_⟩
  · rw [outGroupId_eq w rs i (by omega), outGroupId_eq w rs (i + 1) (by omega),
      outGroupId_eq w rs (i + 2) h]
    omega
  · intro s r hs
    rw [make_synth_true w s r hs]
    exact ⟨rfl, rfl⟩
  · intro s r f0 hs hc
    obtain ⟨f1, hc1, heq⟩ := make_synth_false w s r hs
    rw [hc1] at hc
    injection hc with hc
    subst hc
    rw [heq]
    exact ⟨rfl, rfl⟩

/-- C6 witness: the reuse bound applied to a concrete three-call run. -/
theorem formation_reuse_bound_app :
    ¬(outGroupId w0 [r0, r0, r0] 0 = outGroupId w0 [r0, r0, r0] 1 ∧
      outGroupId w0 [r0, r0, r0] 1 = outGroupId w0 [r0, r0, r0] 2) :=
  (formation_reuse_bound w0 [r0, r0, r0] 0 (by simp)).1

/-- C7: in any run of make() calls from the default maker, the calls that
synthesize a new Formation are exactly the even-indexed ones, the k-th new
formation (at call index 2k) receives group_id k + 1 (so the first new
formation has group_id 1 and each subsequent new formation has the previous
new group_id plus one), and the intervening reusing call keeps the same
group_id. -/
theorem group_id_monotonicity (w : WindowSize) (rs : List RngDraw) (k : Nat)
    (h : 2 * k < rs.length) :
    synthesizes (runState w (List.take (2 * k) rs) FormationMaker.init) = true ∧
    outGroupId w rs (2 * k) = k + 1 ∧
    ∀ h2 : 2 * k + 1 < rs.length,
      synthesizes (runState w (List.take (2 * k + 1) rs) FormationMaker.init) = false ∧
      outGroupId w rs (2 * k + 1) = k + 1 := by
  have hinvTake : ∀ m : Nat, m ≤ rs.length →
      MakerInv m (runState w (List.take m rs) FormationMaker.init) := by
    intro m hm
    have h2 := runState_inv w (List.take m rs) FormationMaker.init 0 makerInv_init
    rwa [List.length_take, Nat.min_eq_left hm, Nat.zero_add] at h2
  refine ⟨?_, ?_, fun h2 => ⟨?_, ?_⟩⟩
  · rw [synthesizes_of_inv _ _ (hinvTake (2 * k) (by omega))]
    simp [Nat.mul_mod_right]
  · rw [outGroupId_eq w rs (2 * k) h]
    omega
  · rw [synthesizes_of_inv _ _ (hinvTake (2 * k + 1) (by omega))]
    simp [show (2 * k + 1) % 2 = 1 from by omega]
  · rw [outGroupId_eq w rs (2 * k + 1) h2]
    omega

/-- C7 witness: the monotonicity theorem applied to a concrete one-call run,
showing the first call synthesizes and receives group_id 1. -/
theorem group_id_monotonicity_app :
    synthesizes (runState w0 (List.take (2 * 0) [r0]) FormationMaker.init) = true ∧
    outGroupId w0 [r0] (2 * 0) = 0 + 1 :=
  ⟨(group_id_monotonicity w0 [r0] 0 (by simp)).1,
   (group_id_monotonicity w0 [r0] 0 (by simp)).2.1⟩

/-- C8: each tick an enemy-origin projectile's y decreases by
speed * TIME_PER_FRAME; it is destroyed exactly when the resulting y is below
-window_height/2 - 50; one already below that bound is removed on the next
tick; one whose moved y stays at or above the bound persists with the
decreased y. -/
theorem enemy_laser_cull (wh speed y : ℝ) (hs : 0 < speed) :
    (enemy_laser_movment wh speed y = none ↔
      y - speed * TIME_PER_FRAME < -wh / 2 - 50) ∧
    (y < -wh / 2 - 50 → enemy_laser_movment wh speed y = none) ∧
    (-wh / 2 - 50 ≤ y - speed * TIME_PER_FRAME →
      enemy_laser_movment wh speed y = some (y - speed * TIME_PER_FRAME) ∧
      y - speed * TIME_PER_FRAME < y) := by
  have hT : 0 < speed * TIME_PER_FRAME := by
    rw [TIME_PER_FRAME]
    positivity
  refine ⟨?_, ?_, ?_⟩
  · constructor
    · intro h
      by_cases hc : y - speed * TIME_PER_FRAME < -wh / 2 - 50
      · exact hc
      · rw [enemy_laser_movment] at h
        simp only [if_neg hc] at h
        exact absurd h (Option.some_ne_none _)
    · intro h
      rw [enemy_laser_movment]
      simp only [if_pos h]
  · intro h
    rw [enemy_laser_movment]
    simp only [if_pos (by linarith : y - speed * TIME_PER_FRAME < -wh / 2 - 50)]
  · intro h
    rw [enemy_laser_movment]
    simp only [if_neg (not_lt.mpr h)]
    refine ⟨?_, by linarith⟩
    simp

/-- C8 witness: the culling theorem applied at the concrete window height 680,
speed 500 and y = 0: the projectile moves down and persists. -/
theorem enemy_laser_cull_app :
    enemy_laser_movment 680 500 0 = some ((0:ℝ) - 500 * TIME_PER_FRAME) ∧
    (0:ℝ) - 500 * TIME_PER_FRAME < 0 :=
  (enemy_laser_cull 680 500 0 (by norm_num)).2.2
    (by rw [TIME_PER_FRAME]; norm_num)

/-- C9: when no live player entity exists, the player movement and player fire
systems perform no action for the tick and do not fail: with the optional
player singleton absent they return the absent player and spawn no lasers. -/
theorem player_absent_noop (left right space_pressed space_just_released : Bool) :
    player_movment left right none = none ∧
    player_fire space_pressed space_just_released none = (none, []) :=
  ⟨rfl, rfl⟩

/- Helper lemmas for the generator-direction claim. -/

theorem makeNew_good (w : WindowSize) (s : FormationMaker) (r : RngDraw) (hr : 0 < r.rx) :
    GoodFormation w (s.makeNew w r).1 := by
  refine ⟨?_, hr, rfl⟩
  rcases hb : r.coin with _ | _
  · right
    show (if r.coin then w.width else w.height) = w.height
    rw [hb]
    simp
  · left
    show (if r.coin then w.width else w.height) = w.width
    rw [hb]
    simp

theorem make_good (w : WindowSize) (s : FormationMaker) (r : RngDraw) (hr : 0 < r.rx)
    (hs : s.current_formation = none ∨
      ∃ g, s.current_formation = some g ∧ GoodFormation w g) :
    GoodFormation w (s.make w r).1 ∧
    ∃ g, (s.make w r).2.current_formation = some g ∧ GoodFormation w g := by
  rcases hs with hnone | ⟨g, hsome, hg⟩
  · rw [make_of_none s w r hnone]
    exact ⟨makeNew_good w s r hr, (s.makeNew w r).1, rfl, makeNew_good w s r hr⟩
  · by_cases hm : MAX_FORMATION_MEMBERS ≤ s.current_formation_members
    · rw [make_of_full s w r g hsome hm]
      exact ⟨makeNew_good w s r hr, (s.makeNew w r).1, rfl, makeNew_good w s r hr⟩
    · rw [make_of_avail s w r g hsome (not_le.mp hm)]
      exact ⟨hg, g, hsome, hg⟩

theorem outFormation_good (w : WindowSize) : ∀ (rs : List RngDraw) (s : FormationMaker),
    (∀ r ∈ rs, 0 < r.rx) →
    (s.current_formation = none ∨
      ∃ g, s.current_formation = some g ∧ GoodFormation w g) →
    ∀ (i : Nat) (f : Formation), outFormation w rs s i = some f → GoodFormation w f := by
  intro rs
  induction rs with
  | nil =>
    intro s _ _ i f h
    simp [outFormation] at h
  | cons r rest ih =>
    intro s hrx hs i f h
    have hr0 : 0 < r.rx := hrx r (by simp)
    have hout := make_good w s r hr0 hs
    cases i with
    | zero =>
      simp only [outFormation, Option.some.injEq] at h
      rw [← h]
      exact hout.1
    | succ j =>
      simp only [outFormation] at h
      exact ih (s.make w r).2 (fun r2 hr2 => hrx r2 (by simp [hr2])) (Or.inr hout.2) j f h

/-- C10: every Formation produced by a run of FormationMaker::make from the
default maker with positive window width and height (and the generator's
positive radius samples) has start.0 equal to the window width or the window
height, hence strictly positive; consequently the motion solver's orbital
direction is always +1 (the dir = -1 branch is unreachable for
generator-produced formations) and the candidate angle strictly exceeds the
stored angle for every positive speed. -/
theorem generator_dir_positive (w : WindowSize) (rs : List RngDraw) (i : Nat) (f : Formation)
    (hw : 0 < w.width) (hh : 0 < w.height) (hrx : ∀ r ∈ rs, 0 < r.rx)
    (hf : outFormation w rs FormationMaker.init i = some f) (speed : ℝ) (hs : 0 < speed) :
    (f.start.1 = w.width ∨ f.start.1 = w.height) ∧ 0 < f.start.1 ∧ dirOf f = 1 ∧
    f.angle < candidateAngle speed f := by
  have hgood : GoodFormation w f :=
    outFormation_good w rs FormationMaker.init hrx (Or.inl rfl) i f hf
  obtain ⟨hstart, hrx1, hry⟩ := hgood
  have hpos : 0 < f.start.1 := by
    rcases hstart with h | h <;> rw [h] <;> assumption
  have hdir : dirOf f = 1 := by rw [dirOf, if_pos hpos]
  refine ⟨hstart, hpos, hdir, ?_⟩
  rw [candidateAngle, hdir]
  have hmin : 0 < min f.radius.1 f.radius.2 := lt_min hrx1 (by rw [hry]; norm_num)
  have hnum : 0 < 1 * speed * TIME_PER_FRAME := by
    rw [TIME_PER_FRAME]
    positivity
  have hden : 0 < min f.radius.1 f.radius.2 * Real.pi / 2 :=
    div_pos (mul_pos hmin Real.pi_pos) (by norm_num)
  have := div_pos hnum hden
  linarith

/-- C10 witness: the direction theorem applied to the first formation of a
concrete one-call run on the 600 x 680 window. -/
theorem generator_dir_positive_app :
    ((FormationMaker.init.make w0 r0).1.start.1 = w0.width ∨
      (FormationMaker.init.make w0 r0).1.start.1 = w0.height) ∧
    0 < (FormationMaker.init.make w0 r0).1.start.1 ∧
    dirOf (FormationMaker.init.make w0 r0).1 = 1 ∧
    (FormationMaker.init.make w0 r0).1.angle <
      candidateAngle 500 (FormationMaker.init.make w0 r0).1 :=
  generator_dir_positive w0 [r0] 0 ((FormationMaker.init.make w0 r0).1)
    (by rw [w0]; norm_num) (by rw [w0]; norm_num)
    (by intro r hr; rw [List.mem_singleton] at hr; rw [hr, r0]; norm_num)
    rfl 500 (by norm_num)
